import Mathlib

/-!
Shallow embedding of the chat and notification coordinators of the
repository (src/unnamed/part_001 `ChatService`, src/lib/notificationService.ts
`NotificationService`, and the UI caller src/app/components/ChatModal.tsx).

Modelling conventions:
* The Firestore document store is modelled as explicit state: a list of
  chat-room documents, a list of chat-message documents, a list of
  notification documents, plus a counter supplying the opaque ids that
  `doc(collection(db, ...))` generates.
* `Date.now()` is passed in as an explicit `now : Nat` argument.
* A Firestore write batch (`writeBatch`/`batch.commit`) is one atomic state
  transition guarded by a `storeOk : Bool` flag; when the commit fails the
  returned state is the unchanged input state.  `batch.update` (and
  `updateDoc`) on a document id that does not exist fails the commit, as in
  Firestore.
* Query filters are evaluated with Firestore's documented operator
  semantics.  In particular `where(field, 'not-in', [v])` keeps a document
  iff the whole field value differs from `v`; for the array field `readBy`
  this compares the entire array against `v`, it is not a membership test.
* `orderBy` is modelled with `List.insertionSort` on the ordered field;
  `limit n` is `List.take n`.
* JS strings are Lean `String`s; `s.substring(0, n)` is `jsSubstringTo s n`
  (the first `n` units, a unit modelled as a `Char`), `s.trim()` is
  `String.trim`, and `[a, b].sort()` is `sortedPair a b` (lexicographic).
-/

/-- Error taxonomy of the coordinators: a `validationError` aborts before any
write, a `storeError` is a failure of the underlying store call. -/
inductive SvcError where
  | validationError
  | storeError
deriving DecidableEq, Repr

/-- `type` field of a chat message and of a room's `lastMessage` summary. -/
inductive MsgType where
  | text
  | meme
  | image
deriving DecidableEq, Repr

/-- `type` field of a chat room. -/
inductive RoomType where
  | direct
  | group
deriving DecidableEq, Repr

/-- The denormalized `lastMessage` summary stored on a `ChatRoom`. -/
structure LastMessage where
  text : String
  senderId : String
  timestamp : Nat
  type : MsgType
deriving DecidableEq, Repr

/-- The `ChatRoom` document shape of src/unnamed/part_001. -/
structure ChatRoom where
  id : String
  name : Option String
  type : RoomType
  participants : List String
  createdBy : String
  createdAt : Nat
  lastMessage : Option LastMessage
  lastActivity : Nat
  isActive : Bool
deriving DecidableEq, Repr

/-- The `memeData` attachment of a meme message. -/
structure MemeData where
  memeId : String
  title : String
  imageUrl : String
  authorName : String
deriving DecidableEq, Repr

/-- The `ChatMessage` document shape of src/unnamed/part_001. -/
structure ChatMessage where
  id : String
  chatId : String
  senderId : String
  senderName : String
  text : String
  type : MsgType
  timestamp : Nat
  memeData : Option MemeData
  readBy : List String
  edited : Option Bool
  editedAt : Option Nat
deriving DecidableEq, Repr

/-- The chat side of the document store: the `chatRooms` and `chatMessages`
collections plus the source of store-generated opaque ids. -/
structure ChatStore where
  rooms : List ChatRoom
  messages : List ChatMessage
  nextId : Nat
deriving DecidableEq, Repr

/-- An opaque store-generated document id (`doc(collection(db, ...)).id`). -/
def freshId (n : Nat) : String := "auto_" ++ toString n

/-- `setDoc` semantics on a room collection: overwrite the document with the
same id when present, create it otherwise. -/
def setRoomDoc (rooms : List ChatRoom) (room : ChatRoom) : List ChatRoom :=
  if rooms.any (fun r => r.id = room.id) then
    rooms.map (fun r => if r.id = room.id then room else r)
  else
    rooms ++ [room]

/-- `[u1, u2].sort()` on two JS strings: lexicographic, stable. -/
def sortedPair (a b : String) : List String :=
  if a ≤ b then [a, b] else [b, a]

/-- The derived identity of a direct room:
`` `direct_${[userId1, userId2].sort().join('_')}` ``. -/
def directChatId (a b : String) : String :=
  "direct_" ++ String.intercalate "_" (sortedPair a b)

/-- `ChatService.getDirectChat`: `getDoc` of the document at the derived
direct-chat id, `null` when absent. -/
def getDirectChat (st : ChatStore) (userId1 userId2 : String) : Option ChatRoom :=
  st.rooms.find? (fun r => r.id = directChatId userId1 userId2)

/-- `ChatService.createDirectChat`: return the existing direct chat when the
lookup finds one, otherwise construct and `setDoc` a fresh room.  The
surrounding try/catch rethrows store failures (`storeOk = false`), leaving
the store unchanged. -/
def createDirectChat (st : ChatStore) (storeOk : Bool) (userId1 userId2 : String)
    (now : Nat) : Except SvcError ChatRoom × ChatStore :=
  match getDirectChat st userId1 userId2 with
  | some existingChat => (Except.ok existingChat, st)
  | none =>
    let chatId := directChatId userId1 userId2
    let chatRoom : ChatRoom :=
      { id := chatId
        name := none
        type := RoomType.direct
        participants := [userId1, userId2]
        createdBy := userId1
        createdAt := now
        lastMessage := none
        lastActivity := now
        isActive := true }
    if storeOk then
      (Except.ok chatRoom, { st with rooms := setRoomDoc st.rooms chatRoom })
    else
      (Except.error SvcError.storeError, st)

/-- Whether a room is an active direct room for the unordered pair `{a, b}`
(participants stored in either order). -/
def isActiveDirectRoomFor (a b : String) (r : ChatRoom) : Bool :=
  r.type = RoomType.direct && r.isActive &&
    (r.participants = [a, b] || r.participants = [b, a])

/-- `ChatService.createGroupChat`: persist a new group room under a fresh
store-generated id; participants are the creator followed by the supplied
list with occurrences of the creator filtered out.  No field validation is
performed; the try/catch rethrows store failures. -/
def createGroupChat (st : ChatStore) (storeOk : Bool) (creatorId : String)
    (participants : List String) (groupName : String) (now : Nat) :
    Except SvcError ChatRoom × ChatStore :=
  let chatRoom : ChatRoom :=
    { id := freshId st.nextId
      name := some groupName
      type := RoomType.group
      participants := creatorId :: participants.filter (fun p => decide (p ≠ creatorId))
      createdBy := creatorId
      createdAt := now
      lastMessage := none
      lastActivity := now
      isActive := true }
  if storeOk then
    (Except.ok chatRoom,
      { st with rooms := setRoomDoc st.rooms chatRoom, nextId := st.nextId + 1 })
  else
    (Except.error SvcError.storeError, st)

/-- `ChatService.getUserChats`: active rooms whose `participants` contain the
user, ordered by `lastActivity` descending. -/
def getUserChats (st : ChatStore) (userId : String) : List ChatRoom :=
  List.insertionSort (fun a b => b.lastActivity ≤ a.lastActivity)
    (st.rooms.filter (fun r => decide (userId ∈ r.participants ∧ r.isActive = true)))

/-- `ChatService.sendMessage`: construct a `ChatMessage` with
`readBy = [senderId]` and commit, in one write batch, the message insert and
the parent room's `lastMessage`/`lastActivity` update.  The batched
`batch.update` fails when the room document is absent; a failed commit
applies nothing and the error is rethrown. -/
def sendMessage (st : ChatStore) (storeOk : Bool)
    (chatId senderId senderName text : String) (now : Nat) :
    Except SvcError ChatMessage × ChatStore :=
  let message : ChatMessage :=
    { id := freshId st.nextId
      chatId := chatId
      senderId := senderId
      senderName := senderName
      text := text
      type := MsgType.text
      timestamp := now
      memeData := none
      readBy := [senderId]
      edited := none
      editedAt := none }
  if storeOk && st.rooms.any (fun r => r.id = chatId) then
    (Except.ok message,
      { rooms := st.rooms.map (fun r =>
          if r.id = chatId then
            { r with
              lastMessage := some
                { text := text, senderId := senderId, timestamp := now, type := MsgType.text }
              lastActivity := now }
          else r)
        messages := st.messages ++ [message]
        nextId := st.nextId + 1 })
  else
    (Except.error SvcError.storeError, st)

/-- `ChatService.sendMemeMessage`: same batched dual write as `sendMessage`,
with `type = meme`, the attachment payload, and the derived
`Shared a meme: <title>` text in both the message and the summary. -/
def sendMemeMessage (st : ChatStore) (storeOk : Bool)
    (chatId senderId senderName : String) (memeData : MemeData) (now : Nat) :
    Except SvcError ChatMessage × ChatStore :=
  let message : ChatMessage :=
    { id := freshId st.nextId
      chatId := chatId
      senderId := senderId
      senderName := senderName
      text := "Shared a meme: " ++ memeData.title
      type := MsgType.meme
      timestamp := now
      memeData := some memeData
      readBy := [senderId]
      edited := none
      editedAt := none }
  if storeOk && st.rooms.any (fun r => r.id = chatId) then
    (Except.ok message,
      { rooms := st.rooms.map (fun r =>
          if r.id = chatId then
            { r with
              lastMessage := some
                { text := "Shared a meme: " ++ memeData.title
                  senderId := senderId
                  timestamp := now
                  type := MsgType.meme }
              lastActivity := now }
          else r)
        messages := st.messages ++ [message]
        nextId := st.nextId + 1 })
  else
    (Except.error SvcError.storeError, st)

/-- `ChatService.getChatMessages`: newest-first page of `limitCount` messages
of the chat, reversed to chronological order before returning. -/
def getChatMessages (st : ChatStore) (chatId : String) (limitCount : Nat := 50) :
    List ChatMessage :=
  ((List.insertionSort (fun a b => b.timestamp ≤ a.timestamp)
      (st.messages.filter (fun m => decide (m.chatId = chatId)))).take limitCount).reverse

/-- Firestore `arrayUnion` with one element: append it unless already present. -/
def arrayUnion (xs : List String) (x : String) : List String :=
  if x ∈ xs then xs else xs ++ [x]

/-- Firestore `arrayRemove` with one element: drop every occurrence. -/
def arrayRemove (xs : List String) (x : String) : List String :=
  xs.filter (fun y => decide (y ≠ x))

/-- `ChatService.markMessageAsRead`: `updateDoc` unioning the user into the
message's `readBy`.  The catch block only logs — a store failure (or a
missing document) is swallowed and the call returns normally. -/
def markMessageAsRead (st : ChatStore) (storeOk : Bool) (messageId userId : String) :
    Except SvcError Unit × ChatStore :=
  if storeOk && st.messages.any (fun m => m.id = messageId) then
    (Except.ok (),
      { st with messages := st.messages.map (fun m =>
          if m.id = messageId then { m with readBy := arrayUnion m.readBy userId } else m) })
  else
    (Except.ok (), st)

/-- `ChatService.markChatAsRead`: query the chat's messages with
`where('readBy', 'not-in', [[userId]])` — i.e. those whose whole `readBy`
array differs from `[userId]` — and batch-union the user into each.  The
catch block only logs, so a failed commit is swallowed. -/
def markChatAsRead (st : ChatStore) (storeOk : Bool) (chatId userId : String) :
    Except SvcError Unit × ChatStore :=
  if storeOk then
    (Except.ok (),
      { st with messages := st.messages.map (fun m =>
          if m.chatId = chatId ∧ m.readBy ≠ [userId] then
            { m with readBy := arrayUnion m.readBy userId }
          else m) })
  else
    (Except.ok (), st)

/-- The per-chat query of `ChatService.getUnreadMessageCount`:
`where('chatId','==',chat.id)`, `where('senderId','!=',userId)`,
`where('readBy','not-in',[[userId]])` — the last clause keeps a message iff
its whole `readBy` array differs from `[userId]`. -/
def unreadQuerySize (st : ChatStore) (chatId userId : String) : Nat :=
  (st.messages.filter (fun m =>
    decide (m.chatId = chatId ∧ m.senderId ≠ userId ∧ m.readBy ≠ [userId]))).length

/-- `ChatService.getUnreadMessageCount`: sum of the per-chat query sizes over
the user's active chats. -/
def getUnreadMessageCount (st : ChatStore) (userId : String) : Nat :=
  ((getUserChats st userId).map (fun chat => unreadQuerySize st chat.id userId)).sum

/-- `ChatService.addParticipant`: `updateDoc` with `arrayUnion(userId)`;
store failures are rethrown. -/
def addParticipant (st : ChatStore) (storeOk : Bool) (chatId userId : String) :
    Except SvcError Unit × ChatStore :=
  if storeOk && st.rooms.any (fun r => r.id = chatId) then
    (Except.ok (),
      { st with rooms := st.rooms.map (fun r =>
          if r.id = chatId then { r with participants := arrayUnion r.participants userId }
          else r) })
  else
    (Except.error SvcError.storeError, st)

/-- `ChatService.removeParticipant`: `updateDoc` with `arrayRemove(userId)`;
store failures are rethrown. -/
def removeParticipant (st : ChatStore) (storeOk : Bool) (chatId userId : String) :
    Except SvcError Unit × ChatStore :=
  if storeOk && st.rooms.any (fun r => r.id = chatId) then
    (Except.ok (),
      { st with rooms := st.rooms.map (fun r =>
          if r.id = chatId then { r with participants := arrayRemove r.participants userId }
          else r) })
  else
    (Except.error SvcError.storeError, st)

/-- `ChatService.deleteChatRoom`: a one-update batch setting
`isActive = false`; store failures are rethrown. -/
def deleteChatRoom (st : ChatStore) (storeOk : Bool) (chatId : String) :
    Except SvcError Unit × ChatStore :=
  if storeOk && st.rooms.any (fun r => r.id = chatId) then
    (Except.ok (),
      { st with rooms := st.rooms.map (fun r =>
          if r.id = chatId then { r with isActive := false } else r) })
  else
    (Except.error SvcError.storeError, st)

/-- The result set `ChatService.subscribeToMessages` delivers to its callback
on registration and on every change: the chat's messages ordered by
`timestamp` ascending, limited to 100 documents. -/
def subscribeToMessagesResult (st : ChatStore) (chatId : String) : List ChatMessage :=
  (List.insertionSort (fun a b => a.timestamp ≤ b.timestamp)
    (st.messages.filter (fun m => decide (m.chatId = chatId)))).take 100

/-- The result set `ChatService.subscribeToUserChats` delivers to its
callback: the user's active rooms ordered by `lastActivity` descending. -/
def subscribeToUserChatsResult (st : ChatStore) (userId : String) : List ChatRoom :=
  List.insertionSort (fun a b => b.lastActivity ≤ a.lastActivity)
    (st.rooms.filter (fun r => decide (userId ∈ r.participants ∧ r.isActive = true)))

/-- Notification `type` values used by the event-driven constructors of
src/lib/notificationService.ts. -/
inductive NotifType where
  | like
  | comment
  | reply
  | achievement
deriving DecidableEq, Repr

/-- The kind-specific `metadata` payload: the union of the fields the
constructors store (absent fields modelled as `none`). -/
structure NotifMetadata where
  memeTitle : Option String
  commentText : Option String
  achievementName : Option String
  achievementIcon : Option String
deriving DecidableEq, Repr

/-- The `NotificationData` document shape, as constructed by
`NotificationService.createNotification` and its callers (the
`types/follow` declaration itself ships outside the sources at hand). -/
structure NotificationData where
  id : String
  userId : String
  fromUserId : Option String
  type : NotifType
  targetId : Option String
  message : String
  read : Bool
  createdAt : Nat
  metadata : NotifMetadata
deriving DecidableEq, Repr

/-- The `Omit<NotificationData, 'id'>` argument of `createNotification`. -/
structure NotificationInput where
  userId : String
  fromUserId : Option String
  type : NotifType
  targetId : Option String
  message : String
  read : Bool
  createdAt : Nat
  metadata : NotifMetadata
deriving DecidableEq, Repr

/-- The `notifications` collection plus the store-generated id source. -/
structure NotifStore where
  notifications : List NotificationData
  nextId : Nat
deriving DecidableEq, Repr

/-- JS `s.substring(0, n)`: the first `n` units of the string (the whole
string when shorter), a unit modelled as a `Char`. -/
def jsSubstringTo (s : String) (n : Nat) : String :=
  String.mk (s.data.take n)

/-- The length of a JS string in units. -/
def jsLength (s : String) : Nat :=
  s.data.length

/-- `NotificationService.createNotification`: reject a missing (falsy, i.e.
empty) `userId` or `message` with a validation error before any write (the
`type` field is a non-empty union literal, never falsy); otherwise assign a
fresh id, default a falsy `createdAt` to now and keep `read || false`,
then `setDoc`.  Store failures are rethrown. -/
def createNotification (st : NotifStore) (storeOk : Bool) (now : Nat)
    (notification : NotificationInput) :
    Except SvcError NotificationData × NotifStore :=
  if notification.userId = "" ∨ notification.message = "" then
    (Except.error SvcError.validationError, st)
  else
    let notificationData : NotificationData :=
      { id := freshId st.nextId
        userId := notification.userId
        fromUserId := notification.fromUserId
        type := notification.type
        targetId := notification.targetId
        message := notification.message
        read := notification.read
        createdAt := if notification.createdAt = 0 then now else notification.createdAt
        metadata := notification.metadata }
    if storeOk then
      (Except.ok notificationData,
        { notifications := st.notifications ++ [notificationData], nextId := st.nextId + 1 })
    else
      (Except.error SvcError.storeError, st)

/-- The try/catch wrapper shared by the event-driven constructors: the catch
block logs and deliberately does not rethrow, so an error outcome of
`createNotification` becomes a normal return that created nothing. -/
def swallowCreate (r : Except SvcError NotificationData × NotifStore) :
    Except SvcError (Option NotificationData) × NotifStore :=
  match r with
  | (Except.ok d, st') => (Except.ok (some d), st')
  | (Except.error _, st') => (Except.ok none, st')

/-- `NotificationService.createLikeNotification`: return early on a
self-like or on falsy parameters (creating nothing and raising nothing);
otherwise create a `like` notification whose metadata carries the title
truncated to 100 units.  The catch block logs and deliberately does not
rethrow. -/
def createLikeNotification (st : NotifStore) (storeOk : Bool) (now : Nat)
    (likedByUserId memeAuthorId memeId memeTitle : String) :
    Except SvcError (Option NotificationData) × NotifStore :=
  if likedByUserId = memeAuthorId then
    (Except.ok none, st)
  else if likedByUserId = "" ∨ memeAuthorId = "" ∨ memeId = "" ∨ memeTitle = "" then
    (Except.ok none, st)
  else
    swallowCreate (createNotification st storeOk now
      { userId := memeAuthorId
        fromUserId := some likedByUserId
        type := NotifType.like
        targetId := some memeId
        message := "liked your meme"
        read := false
        createdAt := now
        metadata :=
          { memeTitle := some (jsSubstringTo memeTitle 100)
            commentText := none
            achievementName := none
            achievementIcon := none } })

/-- `NotificationService.createCommentNotification`: return early on a
self-comment; otherwise create a `comment` notification whose metadata
carries the title as given and the comment text truncated to 100 units.
The catch block logs without rethrowing. -/
def createCommentNotification (st : NotifStore) (storeOk : Bool) (now : Nat)
    (commentByUserId memeAuthorId memeId memeTitle commentText : String) :
    Except SvcError (Option NotificationData) × NotifStore :=
  if commentByUserId = memeAuthorId then
    (Except.ok none, st)
  else
    swallowCreate (createNotification st storeOk now
      { userId := memeAuthorId
        fromUserId := some commentByUserId
        type := NotifType.comment
        targetId := some memeId
        message := "commented on your meme"
        read := false
        createdAt := now
        metadata :=
          { memeTitle := some memeTitle
            commentText := some (jsSubstringTo commentText 100)
            achievementName := none
            achievementIcon := none } })

/-- `NotificationService.createReplyNotification`: return early on a
self-reply; otherwise create a `reply` notification whose metadata carries
the title as given and the reply text truncated to 100 units.  The catch
block logs without rethrowing. -/
def createReplyNotification (st : NotifStore) (storeOk : Bool) (now : Nat)
    (replyByUserId originalCommentUserId memeId memeTitle replyText : String) :
    Except SvcError (Option NotificationData) × NotifStore :=
  if replyByUserId = originalCommentUserId then
    (Except.ok none, st)
  else
    swallowCreate (createNotification st storeOk now
      { userId := originalCommentUserId
        fromUserId := some replyByUserId
        type := NotifType.reply
        targetId := some memeId
        message := "replied to your comment"
        read := false
        createdAt := now
        metadata :=
          { memeTitle := some memeTitle
            commentText := some (jsSubstringTo replyText 100)
            achievementName := none
            achievementIcon := none } })

/-- `NotificationService.createAchievementNotification`: a deliberately
self-addressed `achievement` notification (`fromUserId` is the recipient).
The catch block logs without rethrowing. -/
def createAchievementNotification (st : NotifStore) (storeOk : Bool) (now : Nat)
    (userId achievementName achievementIcon : String) :
    Except SvcError (Option NotificationData) × NotifStore :=
  swallowCreate (createNotification st storeOk now
    { userId := userId
      fromUserId := some userId
      type := NotifType.achievement
      targetId := none
      message := "unlocked the \"" ++ achievementName ++ "\" achievement!"
      read := false
      createdAt := now
      metadata :=
        { memeTitle := none
          commentText := none
          achievementName := some achievementName
          achievementIcon := some achievementIcon } })

/-- `NotificationService.markAsRead`: `updateDoc` flipping `read` to true;
the catch block logs and rethrows, so a store failure (or missing document)
propagates to the caller. -/
def markAsRead (st : NotifStore) (storeOk : Bool) (notificationId : String) :
    Except SvcError Unit × NotifStore :=
  if storeOk && st.notifications.any (fun n => n.id = notificationId) then
    (Except.ok (),
      { st with notifications := st.notifications.map (fun n =>
          if n.id = notificationId then { n with read := true } else n) })
  else
    (Except.error SvcError.storeError, st)

/-- JS `s.trim()`: strip leading and trailing whitespace (modelled
structurally over the unit list so that it evaluates). -/
def jsTrim (s : String) : String :=
  String.mk (((s.data.dropWhile Char.isWhitespace).reverse.dropWhile
    Char.isWhitespace).reverse)

/-- The action `handleStartChat` in ChatModal.tsx takes after its guards: the
UI refuses a blank (all-whitespace) group name before ever calling
`createGroupChat`; the coordinator itself is only reached otherwise. -/
inductive StartChatAction where
  | blockedBlankGroupName
  | groupChat (creatorId : String) (participants : List String) (groupName : String)
  | directChat (userId1 userId2 : String)
deriving DecidableEq, Repr

/-- The dispatch logic of `handleStartChat` (ChatModal.tsx): bail out with no
action when nobody is selected; for a group of more than one selected user,
block on a blank trimmed name, else call `createGroupChat`; otherwise call
`createDirectChat` with the first selected user. -/
def handleStartChat (uid : String) (isGroup : Bool) (selectedUsers : List String)
    (groupName : String) : Option StartChatAction :=
  if selectedUsers.length = 0 then
    none
  else if isGroup = true ∧ 1 < selectedUsers.length then
    if jsTrim groupName = "" then
      some StartChatAction.blockedBlankGroupName
    else
      some (StartChatAction.groupChat uid selectedUsers groupName)
  else
    some (StartChatAction.directChat uid (selectedUsers.headD ""))

theorem sortedPair_comm (a b : String) : sortedPair a b = sortedPair b a := by
  unfold sortedPair
  rcases le_total a b with h | h
  · by_cases h2 : b ≤ a
    · have hab : a = b := le_antisymm h h2
      subst hab; simp
    · simp [h, h2]
  · by_cases h2 : a ≤ b
    · have hab : a = b := le_antisymm h2 h
      subst hab; simp
    · simp [h, h2]

theorem directChatId_comm (a b : String) : directChatId a b = directChatId b a := by
  unfold directChatId
  rw [sortedPair_comm]

/-- C2: for any two user ids, creating a direct chat twice — the second call
in either argument order — returns the same room identity and leaves the
store unchanged, with exactly one stored active direct room for the
unordered pair.  The hypotheses say the store starts with no document at the
derived id and no active direct room for the pair, the invariant the
coordinator maintains. -/
theorem createDirectChat_idempotent_unordered
    (st : ChatStore) (a b : String) (n1 n2 : Nat)
    (hid : ∀ r ∈ st.rooms, r.id ≠ directChatId a b)
    (hpair : ∀ r ∈ st.rooms, isActiveDirectRoomFor a b r = false) :
    ∃ r1 st1,
      createDirectChat st true a b n1 = (Except.ok r1, st1) ∧
      createDirectChat st1 true a b n2 = (Except.ok r1, st1) ∧
      createDirectChat st1 true b a n2 = (Except.ok r1, st1) ∧
      r1.id = directChatId a b ∧
      (st1.rooms.filter (isActiveDirectRoomFor a b)).length = 1 := by
  have hfind : getDirectChat st a b = none := by
    unfold getDirectChat
    rw [List.find?_eq_none]
    intro r hr
    simp [hid r hr]
  have hany : st.rooms.any (fun r => r.id = directChatId a b) = false := by
    rw [List.any_eq_false]
    intro r hr
    simp [hid r hr]
  set room : ChatRoom :=
    { id := directChatId a b
      name := none
      type := RoomType.direct
      participants := [a, b]
      createdBy := a
      createdAt := n1
      lastMessage := none
      lastActivity := n1
      isActive := true } with hroom
  refine ⟨room, { st with rooms := st.rooms ++ [room] }, ?_, ?_, ?_, rfl, ?_⟩
  · unfold createDirectChat
    rw [hfind]
    simp [setRoomDoc, hany, hroom]
  · have hfind2 :
        getDirectChat { st with rooms := st.rooms ++ [room] } a b = some room := by
      unfold getDirectChat
      simp only [List.find?_append]
      rw [List.find?_eq_none.mpr (by intro r hr; simp [hid r hr])]
      simp [hroom]
    unfold createDirectChat
    rw [hfind2]
  · have hfind2 :
        getDirectChat { st with rooms := st.rooms ++ [room] } b a = some room := by
      unfold getDirectChat
      rw [← directChatId_comm]
      simp only [List.find?_append]
      rw [List.find?_eq_none.mpr (by intro r hr; simp [hid r hr])]
      simp [hroom]
    unfold createDirectChat
    rw [hfind2]
  · simp only [List.filter_append]
    rw [List.filter_eq_nil_iff.mpr (by intro r hr; simp [hpair r hr])]
    simp [isActiveDirectRoomFor, hroom]

/-- Closed witness for C2 at a concrete pair on the empty store. -/
theorem createDirectChat_idempotent_unordered_witness :
    ∃ r1 st1,
      createDirectChat ⟨[], [], 0⟩ true "u1" "u2" 3 = (Except.ok r1, st1) ∧
      createDirectChat st1 true "u1" "u2" 5 = (Except.ok r1, st1) ∧
      createDirectChat st1 true "u2" "u1" 5 = (Except.ok r1, st1) ∧
      r1.id = directChatId "u1" "u2" ∧
      (st1.rooms.filter (isActiveDirectRoomFor "u1" "u2")).length = 1 :=
  createDirectChat_idempotent_unordered ⟨[], [], 0⟩ "u1" "u2" 3 5
    (by intro r hr; simp at hr) (by intro r hr; simp at hr)

theorem swallowCreate_isOk (r : Except SvcError NotificationData × NotifStore) :
    ∃ x, (swallowCreate r).1 = Except.ok x := by
  rcases r with ⟨res, st⟩
  cases res <;> simp [swallowCreate]

theorem swallowCreate_ok_some (r : Except SvcError NotificationData × NotifStore)
    (d : NotificationData) (st' : NotifStore)
    (h : swallowCreate r = (Except.ok (some d), st')) : r = (Except.ok d, st') := by
  rcases r with ⟨res, st⟩
  cases res with
  | ok x => simp [swallowCreate] at h; simp [h.1, h.2]
  | error e => simp [swallowCreate] at h

/-- C10: for every creator, participant list and name — the empty and
all-whitespace name and the empty list included — the coordinator's
`createGroupChat` succeeds with no `validationError`, persisting an active
group room whose participants are the creator followed by the supplied ids
different from the creator (the empty list yields just the creator); the
blank-name check lives only in the UI caller `handleStartChat`, which blocks
before the coordinator is reached. -/
theorem createGroupChat_unvalidated (st : ChatStore) (c : String)
    (ps : List String) (s : String) (now : Nat) :
    (∃ room st',
      createGroupChat st true c ps s now = (Except.ok room, st') ∧
      room.participants = c :: ps.filter (fun p => decide (p ≠ c)) ∧
      (∀ x, x ∈ room.participants ↔ x = c ∨ (x ∈ ps ∧ x ≠ c)) ∧
      room.type = RoomType.group ∧
      room.name = some s ∧
      room.isActive = true ∧
      room ∈ st'.rooms ∧
      (ps = [] → room.participants = [c])) ∧
    (∀ uid sel, 1 < sel.length → jsTrim s = "" →
      handleStartChat uid true sel s = some StartChatAction.blockedBlankGroupName) := by
  constructor
  · refine ⟨_, _, rfl, rfl, ?_, rfl, rfl, rfl, ?_, ?_⟩
    · intro x
      simp only [List.mem_cons, List.mem_filter, decide_eq_true_eq]
      try tauto
    · show _ ∈ setRoomDoc st.rooms _
      unfold setRoomDoc
      split
      · next h =>
        rw [List.any_eq_true] at h
        obtain ⟨r, hr, hid⟩ := h
        rw [List.mem_map]
        refine ⟨r, hr, ?_⟩
        simp only [decide_eq_true_eq] at hid
        simp [hid]
      · simp
    · intro h
      simp [h]
  · intro uid sel hlen htrim
    unfold handleStartChat
    rw [if_neg (by omega), if_pos ⟨rfl, hlen⟩, if_pos htrim]

/-- Closed witness for C10: empty participant list and empty name at a
concrete creator on the empty store, with the UI guard exercised on a
two-user selection and an all-whitespace name. -/
theorem createGroupChat_unvalidated_witness :
    (∃ room st',
      createGroupChat ⟨[], [], 0⟩ true "creator" [] "" 7 = (Except.ok room, st') ∧
      room.participants = "creator" :: List.filter (fun p => decide (p ≠ "creator")) [] ∧
      (∀ x, x ∈ room.participants ↔ x = "creator" ∨ (x ∈ ([] : List String) ∧ x ≠ "creator")) ∧
      room.type = RoomType.group ∧
      room.name = some "" ∧
      room.isActive = true ∧
      room ∈ st'.rooms ∧
      (([] : List String) = [] → room.participants = ["creator"])) ∧
    handleStartChat "creator" true ["x", "y"] "  " =
      some StartChatAction.blockedBlankGroupName :=
  ⟨(createGroupChat_unvalidated ⟨[], [], 0⟩ "creator" [] "" 7).1,
   (createGroupChat_unvalidated ⟨[], [], 0⟩ "creator" [] "  " 7).2 "creator" ["x", "y"]
     (by decide) (by decide)⟩

theorem createNotification_ok_fields (st : NotifStore) (ok : Bool) (now : Nat)
    (n : NotificationInput) (d : NotificationData) (st' : NotifStore)
    (h : createNotification st ok now n = (Except.ok d, st')) :
    d.userId = n.userId ∧ d.fromUserId = n.fromUserId ∧ d.type = n.type ∧
    d.targetId = n.targetId ∧ d.message = n.message ∧ d.read = n.read ∧
    d.metadata = n.metadata ∧
    st'.notifications = st.notifications ++ [d] := by
  unfold createNotification at h
  rcases Decidable.em (n.userId = "" ∨ n.message = "") with hv | hv
  · rw [if_pos hv] at h
    simp at h
  · rw [if_neg hv] at h
    cases ok with
    | false =>
      simp at h
    | true =>
      rw [if_pos rfl] at h
      simp only [Prod.mk.injEq, Except.ok.injEq] at h
      obtain ⟨hd, hst⟩ := h
      subst hd
      subst hst
      exact ⟨rfl, rfl, rfl, rfl, rfl, rfl, rfl, rfl⟩

/-- C6: the like, comment and reply constructors create nothing and raise
nothing when the actor equals the recipient, whatever the store outcome; and
any notification the achievement constructor creates has `fromUserId` equal
to its recipient `userId` (both the supplied user). -/
theorem selfSuppression_and_achievement_self
    (st : NotifStore) (ok : Bool) (now : Nat)
    (u cid title ctext uid aname aicon : String) :
    createLikeNotification st ok now u u cid title = (Except.ok none, st) ∧
    createCommentNotification st ok now u u cid title ctext = (Except.ok none, st) ∧
    createReplyNotification st ok now u u cid title ctext = (Except.ok none, st) ∧
    (∀ d st',
      createAchievementNotification st ok now uid aname aicon = (Except.ok (some d), st') →
      d.fromUserId = some uid ∧ d.userId = uid) := by
  refine ⟨?_, ?_, ?_, ?_⟩
  · simp [createLikeNotification]
  · simp [createCommentNotification]
  · simp [createReplyNotification]
  · intro d st' h
    unfold createAchievementNotification at h
    have h2 := createNotification_ok_fields _ _ _ _ _ _ (swallowCreate_ok_some _ _ _ h)
    exact ⟨h2.2.1, h2.1⟩

/-- The concrete achievement notification created by the C6 witness. -/
def c6NotifW : NotificationData :=
  { id := "auto_0", userId := "u", fromUserId := some "u",
    type := NotifType.achievement, targetId := none,
    message := "unlocked the \"First!\" achievement!", read := false, createdAt := 9,
    metadata := { memeTitle := none, commentText := none,
                  achievementName := some "First!", achievementIcon := some "i" } }

/-- Closed witness for C6: a concrete self-like creates nothing, and the
concrete achievement notification actually created is self-addressed. -/
theorem selfSuppression_and_achievement_self_witness :
    createLikeNotification ⟨[], 0⟩ true 9 "u" "u" "m" "t" = (Except.ok none, ⟨[], 0⟩) ∧
    c6NotifW.fromUserId = some "u" ∧ c6NotifW.userId = "u" :=
  ⟨(selfSuppression_and_achievement_self ⟨[], 0⟩ true 9 "u" "m" "t" "x" "u" "First!" "i").1,
   (selfSuppression_and_achievement_self ⟨[], 0⟩ true 9 "u" "m" "t" "x" "u" "First!" "i").2.2.2
     c6NotifW ⟨[c6NotifW], 1⟩ rfl⟩

/-- C7: whatever the inputs and whatever the outcome of the underlying store
write, each event-driven constructor returns normally — its result is an
`Except.ok`, never a propagated error. -/
theorem constructors_never_propagate (st : NotifStore) (ok : Bool) (now : Nat)
    (a b cid title text uid aname aicon : String) :
    (∃ r, (createLikeNotification st ok now a b cid title).1 = Except.ok r) ∧
    (∃ r, (createCommentNotification st ok now a b cid title text).1 = Except.ok r) ∧
    (∃ r, (createReplyNotification st ok now a b cid title text).1 = Except.ok r) ∧
    (∃ r, (createAchievementNotification st ok now uid aname aicon).1 = Except.ok r) := by
  refine ⟨?_, ?_, ?_, ?_⟩
  · unfold createLikeNotification
    split
    · exact ⟨none, rfl⟩
    · split
      · exact ⟨none, rfl⟩
      · exact swallowCreate_isOk _
  · unfold createCommentNotification
    split
    · exact ⟨none, rfl⟩
    · exact swallowCreate_isOk _
  · unfold createReplyNotification
    split
    · exact ⟨none, rfl⟩
    · exact swallowCreate_isOk _
  · exact swallowCreate_isOk _

/-- C1: every sent message (text or meme) carries `readBy = [senderId]`, and
the batch commits the message insert and the parent room's
`lastMessage`/`lastActivity` update as one unit: an ok outcome has both
applied in the resulting store, an error outcome leaves the store exactly as
it was. -/
theorem send_atomic_dual_write (st : ChatStore) (ok : Bool)
    (chatId sid sname text : String) (md : MemeData) (now : Nat) :
    (∀ m st', sendMessage st ok chatId sid sname text now = (Except.ok m, st') →
      m.readBy = [sid] ∧ m.chatId = chatId ∧ m.senderId = sid ∧ m.text = text ∧
      m.timestamp = now ∧ m ∈ st'.messages ∧
      ∃ r ∈ st'.rooms, r.id = chatId ∧
        r.lastMessage = some
          { text := text, senderId := sid, timestamp := now, type := MsgType.text } ∧
        r.lastActivity = now) ∧
    (∀ e st', sendMessage st ok chatId sid sname text now = (Except.error e, st') →
      st' = st) ∧
    (∀ m st', sendMemeMessage st ok chatId sid sname md now = (Except.ok m, st') →
      m.readBy = [sid] ∧ m.chatId = chatId ∧ m.senderId = sid ∧
      m.text = "Shared a meme: " ++ md.title ∧ m.memeData = some md ∧
      m.timestamp = now ∧ m ∈ st'.messages ∧
      ∃ r ∈ st'.rooms, r.id = chatId ∧
        r.lastMessage = some
          { text := "Shared a meme: " ++ md.title, senderId := sid, timestamp := now,
            type := MsgType.meme } ∧
        r.lastActivity = now) ∧
    (∀ e st', sendMemeMessage st ok chatId sid sname md now = (Except.error e, st') →
      st' = st) := by
  refine ⟨?_, ?_, ?_, ?_⟩
  · intro m st' h
    unfold sendMessage at h
    split at h
    · next hcond =>
      simp only [Bool.and_eq_true] at hcond
      obtain ⟨-, hany⟩ := hcond
      rw [List.any_eq_true] at hany
      obtain ⟨r0, hr0, hid0⟩ := hany
      simp only [decide_eq_true_eq] at hid0
      simp only [Prod.mk.injEq, Except.ok.injEq] at h
      obtain ⟨hm, hst⟩ := h
      subst hm
      subst hst
      refine ⟨rfl, rfl, rfl, rfl, rfl, by simp, ?_⟩
      refine ⟨_, List.mem_map.mpr ⟨r0, hr0, rfl⟩, ?_⟩
      rw [if_pos hid0]
      exact ⟨hid0, rfl, rfl⟩
    · simp at h
  · intro e st' h
    unfold sendMessage at h
    split at h
    · simp at h
    · simp only [Prod.mk.injEq] at h
      exact h.2.symm
  · intro m st' h
    unfold sendMemeMessage at h
    split at h
    · next hcond =>
      simp only [Bool.and_eq_true] at hcond
      obtain ⟨-, hany⟩ := hcond
      rw [List.any_eq_true] at hany
      obtain ⟨r0, hr0, hid0⟩ := hany
      simp only [decide_eq_true_eq] at hid0
      simp only [Prod.mk.injEq, Except.ok.injEq] at h
      obtain ⟨hm, hst⟩ := h
      subst hm
      subst hst
      refine ⟨rfl, rfl, rfl, rfl, rfl, rfl, by simp, ?_⟩
      refine ⟨_, List.mem_map.mpr ⟨r0, hr0, rfl⟩, ?_⟩
      rw [if_pos hid0]
      exact ⟨hid0, rfl, rfl⟩
    · simp at h
  · intro e st' h
    unfold sendMemeMessage at h
    split at h
    · simp at h
    · simp only [Prod.mk.injEq] at h
      exact h.2.symm

/-- The concrete one-room store the C1 witness sends into. -/
def c1StoreW : ChatStore :=
  ⟨[{ id := "c", name := none, type := RoomType.direct,
      participants := ["u1", "u2"], createdBy := "u1", createdAt := 0,
      lastMessage := none, lastActivity := 0, isActive := true }], [], 0⟩

/-- The concrete message produced by the C1 witness send. -/
def c1MsgW : ChatMessage :=
  { id := "auto_0", chatId := "c", senderId := "u1", senderName := "U",
    text := "hi", type := MsgType.text, timestamp := 5, memeData := none,
    readBy := ["u1"], edited := none, editedAt := none }

/-- The concrete store after the C1 witness send. -/
def c1StoreW2 : ChatStore :=
  ⟨[{ id := "c", name := none, type := RoomType.direct,
      participants := ["u1", "u2"], createdBy := "u1", createdAt := 0,
      lastMessage := some { text := "hi", senderId := "u1", timestamp := 5,
                            type := MsgType.text },
      lastActivity := 5, isActive := true }], [c1MsgW], 1⟩

/-- Closed witness for C1: on the concrete one-room store a successful text
send yields the concrete message with `readBy = [senderId]` and the room
updated in the same commit, and a failed commit on the empty store leaves it
unchanged; both derived from the theorem with the equation hypotheses
discharged by evaluation. -/
theorem send_atomic_dual_write_witness :
    (c1MsgW.readBy = ["u1"] ∧ c1MsgW.chatId = "c" ∧ c1MsgW.senderId = "u1" ∧
     c1MsgW.text = "hi" ∧ c1MsgW.timestamp = 5 ∧ c1MsgW ∈ c1StoreW2.messages ∧
     ∃ r ∈ c1StoreW2.rooms, r.id = "c" ∧
       r.lastMessage = some
         { text := "hi", senderId := "u1", timestamp := 5, type := MsgType.text } ∧
       r.lastActivity = 5) ∧
    (⟨[], [], 0⟩ : ChatStore) = ⟨[], [], 0⟩ :=
  ⟨(send_atomic_dual_write c1StoreW true "c" "u1" "U" "hi"
      ⟨"m", "t", "u", "a"⟩ 5).1 c1MsgW c1StoreW2 rfl,
   (send_atomic_dual_write ⟨[], [], 0⟩ false "c" "u1" "U" "hi"
      ⟨"m", "t", "u", "a"⟩ 5).2.1 SvcError.storeError _ rfl⟩

/-- One read-marking call (`markMessageAsRead` or `markChatAsRead`) together
with the success flag of its underlying store write. -/
inductive MarkOp where
  | message (storeOk : Bool) (messageId userId : String)
  | chat (storeOk : Bool) (chatId userId : String)
deriving DecidableEq, Repr

/-- Run one read-marking call; both calls swallow failures, so the resulting
store is all that is observable. -/
def applyMarkOp (st : ChatStore) : MarkOp → ChatStore
  | MarkOp.message ok mid uid => (markMessageAsRead st ok mid uid).2
  | MarkOp.chat ok cid uid => (markChatAsRead st ok cid uid).2

/-- Run a sequence of read-marking calls left to right. -/
def applyMarkOps (st : ChatStore) (ops : List MarkOp) : ChatStore :=
  ops.foldl applyMarkOp st

theorem arrayUnion_subset_self (xs : List String) (x : String) :
    xs ⊆ arrayUnion xs x := by
  unfold arrayUnion
  split
  · exact fun a h => h
  · exact List.subset_append_left xs [x]

theorem mem_arrayUnion_self (xs : List String) (x : String) :
    x ∈ arrayUnion xs x := by
  unfold arrayUnion
  split
  · assumption
  · simp

theorem arrayUnion_of_mem {xs : List String} {x : String} (h : x ∈ xs) :
    arrayUnion xs x = xs := by
  unfold arrayUnion
  rw [if_pos h]

theorem listForall2_trans {α : Type} {R : α → α → Prop} (hR : Transitive R) :
    ∀ {l1 l2 l3 : List α},
      List.Forall₂ R l1 l2 → List.Forall₂ R l2 l3 → List.Forall₂ R l1 l3 := by
  intro l1 l2 l3 h1 h2
  induction h1 generalizing l3 with
  | nil => cases h2; exact List.Forall₂.nil
  | cons hab _ ih =>
    cases h2 with
    | cons hbc h' => exact List.Forall₂.cons (hR hab hbc) (ih h')

/-- The growth relation a marking step establishes between the old and new
version of each stored message. -/
def ReadByGrows (m m' : ChatMessage) : Prop :=
  m.readBy ⊆ m'.readBy ∧ m'.senderId = m.senderId

theorem readByGrows_trans : Transitive ReadByGrows := by
  intro a b c hab hbc
  exact ⟨fun x hx => hbc.1 (hab.1 hx), hbc.2.trans hab.2⟩

theorem applyMarkOp_grows (st : ChatStore) (op : MarkOp) :
    List.Forall₂ ReadByGrows st.messages (applyMarkOp st op).messages := by
  have refl_case : List.Forall₂ ReadByGrows st.messages st.messages :=
    List.forall₂_same.mpr (fun m _ => ⟨fun x hx => hx, rfl⟩)
  cases op with
  | message ok mid uid =>
    show List.Forall₂ ReadByGrows st.messages (markMessageAsRead st ok mid uid).2.messages
    unfold markMessageAsRead
    split
    · refine List.forall₂_map_right_iff.mpr (List.forall₂_same.mpr (fun m _ => ?_))
      split
      · exact ⟨arrayUnion_subset_self _ _, rfl⟩
      · exact ⟨fun x hx => hx, rfl⟩
    · exact refl_case
  | chat ok cid uid =>
    show List.Forall₂ ReadByGrows st.messages (markChatAsRead st ok cid uid).2.messages
    unfold markChatAsRead
    split
    · refine List.forall₂_map_right_iff.mpr (List.forall₂_same.mpr (fun m _ => ?_))
      split
      · exact ⟨arrayUnion_subset_self _ _, rfl⟩
      · exact ⟨fun x hx => hx, rfl⟩
    · exact refl_case

theorem applyMarkOps_grows (ops : List MarkOp) (st : ChatStore) :
    List.Forall₂ ReadByGrows st.messages (applyMarkOps st ops).messages := by
  induction ops generalizing st with
  | nil => exact List.forall₂_same.mpr (fun m _ => ⟨fun x hx => hx, rfl⟩)
  | cons op ops ih =>
    exact listForall2_trans readByGrows_trans (applyMarkOp_grows st op)
      (ih (applyMarkOp st op))

theorem applyMarkOp_sender_invariant (st : ChatStore) (op : MarkOp)
    (h : ∀ m ∈ st.messages, m.senderId ∈ m.readBy) :
    ∀ m ∈ (applyMarkOp st op).messages, m.senderId ∈ m.readBy := by
  cases op with
  | message ok mid uid =>
    show ∀ m ∈ (markMessageAsRead st ok mid uid).2.messages, _
    unfold markMessageAsRead
    split
    · intro m hm
      rw [List.mem_map] at hm
      obtain ⟨m0, hm0, hf⟩ := hm
      subst hf
      split
      · exact arrayUnion_subset_self _ _ (h m0 hm0)
      · exact h m0 hm0
    · exact h
  | chat ok cid uid =>
    show ∀ m ∈ (markChatAsRead st ok cid uid).2.messages, _
    unfold markChatAsRead
    split
    · intro m hm
      rw [List.mem_map] at hm
      obtain ⟨m0, hm0, hf⟩ := hm
      subst hf
      split
      · exact arrayUnion_subset_self _ _ (h m0 hm0)
      · exact h m0 hm0
    · exact h

theorem applyMarkOps_sender_invariant (ops : List MarkOp) (st : ChatStore)
    (h : ∀ m ∈ st.messages, m.senderId ∈ m.readBy) :
    ∀ m ∈ (applyMarkOps st ops).messages, m.senderId ∈ m.readBy := by
  induction ops generalizing st with
  | nil => exact h
  | cons op ops ih => exact ih (applyMarkOp st op) (applyMarkOp_sender_invariant st op h)

theorem applyMarkOp_idem (st : ChatStore) (op : MarkOp) :
    applyMarkOp (applyMarkOp st op) op = applyMarkOp st op := by
  cases op with
  | message ok mid uid =>
    cases ok with
    | false => rfl
    | true =>
      show (markMessageAsRead (markMessageAsRead st true mid uid).2 true mid uid).2 =
        (markMessageAsRead st true mid uid).2
      unfold markMessageAsRead
      by_cases hany : st.messages.any (fun m => m.id = mid)
      · have hid : ∀ m : ChatMessage,
            ((if m.id = mid then { m with readBy := arrayUnion m.readBy uid } else m) :
              ChatMessage).id = m.id := by
          intro m
          split <;> rfl
        have hany2 :
            (st.messages.map (fun m =>
              if m.id = mid then { m with readBy := arrayUnion m.readBy uid } else m)).any
              (fun m => m.id = mid) = true := by
          rw [List.any_map]
          rw [List.any_eq_true] at hany ⊢
          obtain ⟨m, hm, hp⟩ := hany
          exact ⟨m, hm, by simpa [Function.comp, hid m] using hp⟩
        simp only [Bool.true_and, hany, hany2, if_pos]
        simp only [ChatStore.mk.injEq, and_true, true_and]
        rw [List.map_map]
        apply List.map_congr_left
        intro m _
        simp only [Function.comp]
        by_cases hm : m.id = mid
        · rw [if_pos hm]
          rw [if_pos
            (show ({ m with readBy := arrayUnion m.readBy uid } : ChatMessage).id = mid
              from hm)]
          simp [arrayUnion_of_mem (mem_arrayUnion_self m.readBy uid)]
        · rw [if_neg hm, if_neg hm]
      · simp only [Bool.true_and]
        rw [if_neg hany, if_neg hany]
  | chat ok cid uid =>
    cases ok with
    | false => rfl
    | true =>
      show (markChatAsRead (markChatAsRead st true cid uid).2 true cid uid).2 =
        (markChatAsRead st true cid uid).2
      unfold markChatAsRead
      simp only [if_pos]
      simp only [ChatStore.mk.injEq, and_true, true_and]
      rw [List.map_map]
      apply List.map_congr_left
      intro m _
      simp only [Function.comp]
      by_cases hm : m.chatId = cid ∧ m.readBy ≠ [uid]
      · rw [if_pos hm]
        by_cases h2 : arrayUnion m.readBy uid = [uid]
        · rw [if_neg (by
            intro hc
            exact hc.2 h2)]
        · rw [if_pos ⟨hm.1, h2⟩]
          simp [arrayUnion_of_mem (mem_arrayUnion_self m.readBy uid)]
      · rw [if_neg hm, if_neg hm]

/-- C4: across any sequence of `markMessageAsRead`/`markChatAsRead` calls a
message's `readBy` only gains members (and its sender never changes), a
store whose messages all contain their sender in `readBy` keeps that
invariant, and repeating any single mark call leaves the store — hence every
`readBy` — exactly as after one call. -/
theorem readBy_monotone_sender_idempotent (st : ChatStore) (ops : List MarkOp)
    (op : MarkOp) :
    List.Forall₂ ReadByGrows st.messages (applyMarkOps st ops).messages ∧
    ((∀ m ∈ st.messages, m.senderId ∈ m.readBy) →
      ∀ m ∈ (applyMarkOps st ops).messages, m.senderId ∈ m.readBy) ∧
    applyMarkOp (applyMarkOp st op) op = applyMarkOp st op :=
  ⟨applyMarkOps_grows ops st,
   fun h => applyMarkOps_sender_invariant ops st h,
   applyMarkOp_idem st op⟩

/-- The concrete store the C4 witness marks: one message from `a`, already
read only by its sender. -/
def c4StoreW : ChatStore :=
  ⟨[], [{ id := "m1", chatId := "c", senderId := "a", senderName := "A",
          text := "hi", type := MsgType.text, timestamp := 1, memeData := none,
          readBy := ["a"], edited := none, editedAt := none }], 0⟩

/-- Closed witness for C4 at a concrete store and a concrete pair of mark
calls, the sender-invariant hypothesis discharged by evaluation. -/
theorem readBy_monotone_sender_idempotent_witness :
    List.Forall₂ ReadByGrows c4StoreW.messages
      (applyMarkOps c4StoreW
        [MarkOp.message true "m1" "u", MarkOp.chat true "c" "v"]).messages ∧
    (∀ m ∈ (applyMarkOps c4StoreW
        [MarkOp.message true "m1" "u", MarkOp.chat true "c" "v"]).messages,
       m.senderId ∈ m.readBy) ∧
    applyMarkOp (applyMarkOp c4StoreW (MarkOp.message true "m1" "u"))
        (MarkOp.message true "m1" "u") =
      applyMarkOp c4StoreW (MarkOp.message true "m1" "u") :=
  ⟨(readBy_monotone_sender_idempotent c4StoreW
      [MarkOp.message true "m1" "u", MarkOp.chat true "c" "v"]
      (MarkOp.message true "m1" "u")).1,
   (readBy_monotone_sender_idempotent c4StoreW
      [MarkOp.message true "m1" "u", MarkOp.chat true "c" "v"]
      (MarkOp.message true "m1" "u")).2.1 (by decide),
   (readBy_monotone_sender_idempotent c4StoreW
      [MarkOp.message true "m1" "u", MarkOp.chat true "c" "v"]
      (MarkOp.message true "m1" "u")).2.2⟩

theorem jsSubstringTo_of_le {s : String} {n : Nat} (h : jsLength s ≤ n) :
    jsSubstringTo s n = s := by
  unfold jsSubstringTo
  rw [List.take_of_length_le h]

theorem jsLength_jsSubstringTo (s : String) (n : Nat) :
    jsLength (jsSubstringTo s n) = min n (jsLength s) := by
  unfold jsSubstringTo jsLength
  exact List.length_take n s.data

/-- C5 counterexample: a comment notification created from a 101-unit title
stores that title in its metadata at full length 101, not truncated to
100. -/
theorem comment_title_unmodified_counterexample :
    ((createCommentNotification ⟨[], 0⟩ true 1 "alice" "bob" "m1"
        (String.mk (List.replicate 101 'a')) "hi").1.map
      (fun od => od.map (fun d => jsLength (d.metadata.memeTitle.getD "")))) =
      Except.ok (some 101) := rfl

/-- C5 (amended): the like constructor stores the content title truncated to
its first 100 units (unmodified when at most 100); the comment and reply
constructors truncate only the quoted comment/reply text to 100 units and
store the content title unmodified whatever its length; truncation never
raises. -/
theorem metadata_truncation_policy (st : NotifStore) (ok : Bool) (now : Nat)
    (a b cid title ctext : String) :
    (∀ d st',
      createLikeNotification st ok now a b cid title = (Except.ok (some d), st') →
      d.metadata.memeTitle = some (jsSubstringTo title 100) ∧
      (jsLength title ≤ 100 → d.metadata.memeTitle = some title) ∧
      (100 < jsLength title →
        ∃ t, d.metadata.memeTitle = some t ∧ jsLength t = 100)) ∧
    (∀ d st',
      createCommentNotification st ok now a b cid title ctext = (Except.ok (some d), st') →
      d.metadata.commentText = some (jsSubstringTo ctext 100) ∧
      d.metadata.memeTitle = some title ∧
      (jsLength ctext ≤ 100 → d.metadata.commentText = some ctext) ∧
      (100 < jsLength ctext →
        ∃ t, d.metadata.commentText = some t ∧ jsLength t = 100)) ∧
    (∀ d st',
      createReplyNotification st ok now a b cid title ctext = (Except.ok (some d), st') →
      d.metadata.commentText = some (jsSubstringTo ctext 100) ∧
      d.metadata.memeTitle = some title ∧
      (jsLength ctext ≤ 100 → d.metadata.commentText = some ctext) ∧
      (100 < jsLength ctext →
        ∃ t, d.metadata.commentText = some t ∧ jsLength t = 100)) := by
  refine ⟨?_, ?_, ?_⟩
  · intro d st' h
    unfold createLikeNotification at h
    split at h
    · simp at h
    · split at h
      · simp at h
      · have hm :=
          (createNotification_ok_fields _ _ _ _ _ _ (swallowCreate_ok_some _ _ _ h)).2.2.2.2.2.2.1
        rw [hm]
        refine ⟨rfl, fun hle => by rw [jsSubstringTo_of_le hle], fun hgt => ?_⟩
        refine ⟨jsSubstringTo title 100, rfl, ?_⟩
        rw [jsLength_jsSubstringTo]
        omega
  · intro d st' h
    unfold createCommentNotification at h
    split at h
    · simp at h
    · have hm :=
        (createNotification_ok_fields _ _ _ _ _ _ (swallowCreate_ok_some _ _ _ h)).2.2.2.2.2.2.1
      rw [hm]
      refine ⟨rfl, rfl, fun hle => by rw [jsSubstringTo_of_le hle], fun hgt => ?_⟩
      refine ⟨jsSubstringTo ctext 100, rfl, ?_⟩
      rw [jsLength_jsSubstringTo]
      omega
  · intro d st' h
    unfold createReplyNotification at h
    split at h
    · simp at h
    · have hm :=
        (createNotification_ok_fields _ _ _ _ _ _ (swallowCreate_ok_some _ _ _ h)).2.2.2.2.2.2.1
      rw [hm]
      refine ⟨rfl, rfl, fun hle => by rw [jsSubstringTo_of_le hle], fun hgt => ?_⟩
      refine ⟨jsSubstringTo ctext 100, rfl, ?_⟩
      rw [jsLength_jsSubstringTo]
      omega

/-- The 101-unit title the C5 witness uses. -/
def c5TitleW : String := String.mk (List.replicate 101 'a')

/-- The concrete comment notification the C5 witness creates. -/
def c5NotifW : NotificationData :=
  { id := "auto_0", userId := "bob", fromUserId := some "alice",
    type := NotifType.comment, targetId := some "m1",
    message := "commented on your meme", read := false, createdAt := 1,
    metadata := { memeTitle := some c5TitleW,
                  commentText := some "hi",
                  achievementName := none, achievementIcon := none } }

/-- Closed witness for the amended C5 at a concrete comment notification
whose 101-unit title is stored unmodified and whose short comment text is
stored unmodified. -/
theorem metadata_truncation_policy_witness :
    c5NotifW.metadata.commentText = some (jsSubstringTo "hi" 100) ∧
    c5NotifW.metadata.memeTitle = some c5TitleW ∧
    (jsLength "hi" ≤ 100 → c5NotifW.metadata.commentText = some "hi") ∧
    (100 < jsLength "hi" →
      ∃ t, c5NotifW.metadata.commentText = some t ∧ jsLength t = 100) :=
  (metadata_truncation_policy ⟨[], 0⟩ true 1 "alice" "bob" "m1" c5TitleW "hi").2.1
    c5NotifW ⟨[c5NotifW], 1⟩ rfl

/-- C8 counterexample: with a failing store write, `markMessageAsRead` and
`markChatAsRead` both return normally with the store unchanged instead of
propagating the failure. -/
theorem markRead_swallows_counterexample :
    markMessageAsRead ⟨[], [], 0⟩ false "m1" "u" = (Except.ok (), ⟨[], [], 0⟩) ∧
    markChatAsRead ⟨[], [], 0⟩ false "c" "u" = (Except.ok (), ⟨[], [], 0⟩) :=
  ⟨rfl, rfl⟩

/-- C8 (amended): a failing store write is propagated as an error, with the
store unchanged, by every chat and notification write path — creation,
sends, participant changes, room deletion, notification creation and
notification `markAsRead` — except `markMessageAsRead` and `markChatAsRead`,
whose catch blocks swallow the failure and return normally. -/
theorem write_path_error_policy (cst : ChatStore) (nst : NotifStore) (now : Nat)
    (a b c gname sid sn text nid mid cid uid : String) (ps : List String)
    (md : MemeData) (n : NotificationInput)
    (hd : getDirectChat cst a b = none)
    (hn : ¬(n.userId = "" ∨ n.message = "")) :
    createDirectChat cst false a b now = (Except.error SvcError.storeError, cst) ∧
    createGroupChat cst false c ps gname now = (Except.error SvcError.storeError, cst) ∧
    sendMessage cst false cid sid sn text now = (Except.error SvcError.storeError, cst) ∧
    sendMemeMessage cst false cid sid sn md now = (Except.error SvcError.storeError, cst) ∧
    addParticipant cst false cid uid = (Except.error SvcError.storeError, cst) ∧
    removeParticipant cst false cid uid = (Except.error SvcError.storeError, cst) ∧
    deleteChatRoom cst false cid = (Except.error SvcError.storeError, cst) ∧
    createNotification nst false now n = (Except.error SvcError.storeError, nst) ∧
    markAsRead nst false nid = (Except.error SvcError.storeError, nst) ∧
    markMessageAsRead cst false mid uid = (Except.ok (), cst) ∧
    markChatAsRead cst false cid uid = (Except.ok (), cst) := by
  refine ⟨?_, rfl, ?_, ?_, ?_, ?_, ?_, ?_, ?_, ?_, rfl⟩
  · unfold createDirectChat
    rw [hd]
    rfl
  · unfold sendMessage
    rw [if_neg (by simp)]
  · unfold sendMemeMessage
    rw [if_neg (by simp)]
  · unfold addParticipant
    rw [if_neg (by simp)]
  · unfold removeParticipant
    rw [if_neg (by simp)]
  · unfold deleteChatRoom
    rw [if_neg (by simp)]
  · unfold createNotification
    rw [if_neg hn]
    rfl
  · unfold markAsRead
    rw [if_neg (by simp)]
  · unfold markMessageAsRead
    rw [if_neg (by simp)]

/-- Closed witness for the amended C8 on empty stores with a concrete valid
notification input, hypotheses discharged by evaluation. -/
theorem write_path_error_policy_witness :
    createDirectChat ⟨[], [], 0⟩ false "a" "b" 1 =
      (Except.error SvcError.storeError, ⟨[], [], 0⟩) ∧
    createGroupChat ⟨[], [], 0⟩ false "c" [] "g" 1 =
      (Except.error SvcError.storeError, ⟨[], [], 0⟩) ∧
    sendMessage ⟨[], [], 0⟩ false "cid" "s" "S" "t" 1 =
      (Except.error SvcError.storeError, ⟨[], [], 0⟩) ∧
    sendMemeMessage ⟨[], [], 0⟩ false "cid" "s" "S" ⟨"m", "t", "u", "a"⟩ 1 =
      (Except.error SvcError.storeError, ⟨[], [], 0⟩) ∧
    addParticipant ⟨[], [], 0⟩ false "cid" "u" =
      (Except.error SvcError.storeError, ⟨[], [], 0⟩) ∧
    removeParticipant ⟨[], [], 0⟩ false "cid" "u" =
      (Except.error SvcError.storeError, ⟨[], [], 0⟩) ∧
    deleteChatRoom ⟨[], [], 0⟩ false "cid" =
      (Except.error SvcError.storeError, ⟨[], [], 0⟩) ∧
    createNotification ⟨[], 0⟩ false 1
        { userId := "x", fromUserId := none, type := NotifType.like,
          targetId := none, message := "m", read := false, createdAt := 1,
          metadata := { memeTitle := none, commentText := none,
                        achievementName := none, achievementIcon := none } } =
      (Except.error SvcError.storeError, ⟨[], 0⟩) ∧
    markAsRead ⟨[], 0⟩ false "n1" = (Except.error SvcError.storeError, ⟨[], 0⟩) ∧
    markMessageAsRead ⟨[], [], 0⟩ false "m1" "u" = (Except.ok (), ⟨[], [], 0⟩) ∧
    markChatAsRead ⟨[], [], 0⟩ false "cid" "u" = (Except.ok (), ⟨[], [], 0⟩) :=
  write_path_error_policy ⟨[], [], 0⟩ ⟨[], 0⟩ 1 "a" "b" "c" "g" "s" "S" "t" "n1"
    "m1" "cid" "u" []
    ⟨"m", "t", "u", "a"⟩
    { userId := "x", fromUserId := none, type := NotifType.like,
      targetId := none, message := "m", read := false, createdAt := 1,
      metadata := { memeTitle := none, commentText := none,
                    achievementName := none, achievementIcon := none } }
    rfl (by decide)

instance : IsTotal ChatMessage (fun a b => a.timestamp ≤ b.timestamp) :=
  ⟨fun a b => Nat.le_total a.timestamp b.timestamp⟩

instance : IsTrans ChatMessage (fun a b => a.timestamp ≤ b.timestamp) :=
  ⟨fun _ _ _ hab hbc => Nat.le_trans hab hbc⟩

/-- The 101 concrete messages of one chat that the C9 counterexample
subscribes to. -/
def c9StoreW : ChatStore :=
  ⟨[], (List.range 101).map (fun i =>
    { id := toString i, chatId := "c", senderId := "s", senderName := "S",
      text := "t", type := MsgType.text, timestamp := i, memeData := none,
      readBy := ["s"], edited := none, editedAt := none }), 0⟩

/-- C9 counterexample: with 101 messages in the chat, the subscription
delivers only 100 of them — a truncated subset, not the complete result
set. -/
theorem subscribe_messages_truncated_counterexample :
    (subscribeToMessagesResult c9StoreW "c").length = 100 ∧
    (c9StoreW.messages.filter (fun m => decide (m.chatId = "c"))).length = 101 := by
  have hfilter :
      c9StoreW.messages.filter (fun m => decide (m.chatId = "c")) = c9StoreW.messages := by
    apply List.filter_eq_self.mpr
    intro m hm
    simp only [c9StoreW, List.mem_map, List.mem_range] at hm
    obtain ⟨i, -, rfl⟩ := hm
    simp
  have hlen : c9StoreW.messages.length = 101 := by
    simp [c9StoreW]
  constructor
  · unfold subscribeToMessagesResult
    rw [List.length_take, List.length_insertionSort, hfilter, hlen]
    rfl
  · rw [hfilter, hlen]

/-- C9 (amended): on registration and on every change the callback receives
the chat's messages in ascending timestamp order, drawn from the chat's
message set, but limited to the first 100: the complete result set exactly
when the chat holds at most 100 messages, and a truncated ascending prefix
otherwise — never an incremental diff. -/
theorem subscribe_messages_ordered_capped (st : ChatStore) (cid : String) :
    List.Sorted (fun a b : ChatMessage => a.timestamp ≤ b.timestamp)
      (subscribeToMessagesResult st cid) ∧
    (subscribeToMessagesResult st cid).length =
      min 100 (st.messages.filter (fun m => decide (m.chatId = cid))).length ∧
    (∀ m ∈ subscribeToMessagesResult st cid,
      m ∈ st.messages.filter (fun m => decide (m.chatId = cid))) ∧
    ((st.messages.filter (fun m => decide (m.chatId = cid))).length ≤ 100 →
      (subscribeToMessagesResult st cid).Perm
        (st.messages.filter (fun m => decide (m.chatId = cid)))) := by
  refine ⟨?_, ?_, ?_, ?_⟩
  · exact List.Pairwise.sublist (List.take_sublist 100 _)
      (List.sorted_insertionSort (fun a b : ChatMessage => a.timestamp ≤ b.timestamp) _)
  · unfold subscribeToMessagesResult
    rw [List.length_take, List.length_insertionSort]
  · intro m hm
    have hm2 := List.take_subset 100 _ hm
    exact (List.mem_insertionSort (fun a b : ChatMessage => a.timestamp ≤ b.timestamp)).mp hm2
  · intro hle
    unfold subscribeToMessagesResult
    rw [List.take_of_length_le (by rw [List.length_insertionSort]; exact hle)]
    exact List.perm_insertionSort (fun a b : ChatMessage => a.timestamp ≤ b.timestamp) _

/-- Closed witness for the amended C9 on a two-message chat: the delivered
list is sorted, has the full length 2, and is a permutation of the chat's
messages, with the cap hypothesis discharged by evaluation. -/
theorem subscribe_messages_ordered_capped_witness :
    List.Sorted (fun a b : ChatMessage => a.timestamp ≤ b.timestamp)
      (subscribeToMessagesResult c4StoreW "c") ∧
    (subscribeToMessagesResult c4StoreW "c").length =
      min 100 (c4StoreW.messages.filter (fun m => decide (m.chatId = "c"))).length ∧
    (subscribeToMessagesResult c4StoreW "c").Perm
      (c4StoreW.messages.filter (fun m => decide (m.chatId = "c"))) :=
  ⟨(subscribe_messages_ordered_capped c4StoreW "c").1,
   (subscribe_messages_ordered_capped c4StoreW "c").2.1,
   (subscribe_messages_ordered_capped c4StoreW "c").2.2.2 (by decide)⟩

/-- The unread count the specification describes (spec §4.1 `getUnreadCount`
and §8 property 4): messages across the user's active chats authored by
someone else whose `readBy` does not contain the user. -/
def specUnreadCount (st : ChatStore) (userId : String) : Nat :=
  (st.messages.filter (fun m =>
    decide ((∃ r ∈ st.rooms, r.isActive = true ∧ userId ∈ r.participants ∧
        r.id = m.chatId) ∧
      m.senderId ≠ userId ∧ userId ∉ m.readBy))).length

/-- The failing input for C3: one active direct chat of `a` and `u`, holding
one message from `a` that `u` has already read (`readBy = [a, u]`, the state
`markChatAsRead` leaves behind). -/
def c3StoreW : ChatStore :=
  ⟨[{ id := "d1", name := none, type := RoomType.direct,
      participants := ["a", "u"], createdBy := "a", createdAt := 0,
      lastMessage := none, lastActivity := 0, isActive := true }],
   [{ id := "m1", chatId := "d1", senderId := "a", senderName := "A",
      text := "hi", type := MsgType.text, timestamp := 1, memeData := none,
      readBy := ["a", "u"], edited := none, editedAt := none }], 0⟩

/-- C3: the code's `where('readBy','not-in',[[userId]])` compares the whole
`readBy` array against `[userId]` instead of testing membership, so a
message the user has already read (here `readBy = [a, u]`) still counts:
the code reports 1 unread where the specified count is 0. -/
theorem unreadCount_counts_read_message :
    getUnreadMessageCount c3StoreW "u" = 1 ∧ specUnreadCount c3StoreW "u" = 0 := by
  constructor
  · rfl
  · rfl
